import Mathlib

/-!
learn-passkeys — formal model of the WebAuthn relying-party handlers.

Shallow embedding of the server-side ceremony handlers of the
`learn-passkeys` repository (`backend/handlers/register.go`,
`backend/handlers/login.go`, `backend/models/*.go`, `init.sql`,
`init-3.sql`).  The database is modelled as lists of rows; each HTTP
handler becomes a function from the database state (plus the parsed
request and the values produced by the surrounding runtime: fresh ids,
clock readings, the session data generated by the WebAuthn library at
Begin time) to either an error or the updated state.  Every error path
in the Go code returns before any mutating SQL statement runs, so an
error result leaves the state unchanged.

The cryptographic verifiers (`webauthn.CreateCredential`,
`webauthn.ValidateLogin`) live in the external `go-webauthn` library and
are not part of the repository's source tree; they are modelled from the
specification (§4.3 Attestation Verifier, §4.4 Assertion Verifier) and
are marked as such below.
-/

namespace LearnPasskeys

/-- A row of the `users` table (`init.sql`): `id UUID PRIMARY KEY`,
`username VARCHAR UNIQUE`, `created_at TIMESTAMP`.  UUIDs are abstracted
as `Nat`, with `0` standing for `uuid.Nil`; the generator
`gen_random_uuid()` never produces the nil UUID. -/
structure UserRow where
  id : Nat
  username : String
  createdAt : Nat
deriving Repr, DecidableEq

/-- A row of the `credentials` table (`init.sql` plus the `init-3.sql`
migration): `id BYTEA PRIMARY KEY`, `user_id UUID`, `public_key BYTEA`,
`sign_count INTEGER`, `backup_eligible BOOLEAN`, `backup_state BOOLEAN`,
`attestation_type VARCHAR`, `aaguid BYTEA`, `created_at TIMESTAMP`.
Byte strings are `List Nat`; timestamps are `Nat`. -/
structure CredentialRow where
  id : List Nat
  userId : Nat
  publicKey : List Nat
  signCount : Nat
  backupEligible : Bool
  backupState : Bool
  attestationType : String
  aaguid : List Nat
  createdAt : Nat
deriving Repr, DecidableEq

/-- `webauthn.SessionData` of the go-webauthn library: the session
context produced by `BeginRegistration` / `BeginLogin`.  Fields:
`Challenge string`, `RelyingPartyID string`, `UserID []byte`,
`AllowedCredentialIDs [][]byte`, `Expires time.Time`,
`UserVerification`, plus the credential-parameter (algorithm) list the
registration options carried. -/
structure SessionData where
  challenge : String
  relyingPartyID : String
  userID : List Nat
  allowedCredentialIDs : List (List Nat)
  expires : Nat
  userVerification : String
  credParams : List Int
deriving Repr, DecidableEq

/-- Contents of the `challenge BYTEA` column of the `challenges` table.
`BeginRegistration` stores `json.Marshal(sessionData)` — a lossless
encoding of the whole `SessionData` (`register.go:71,78`), modelled as
the injection `sessionJSON`.  `BeginLogin` stores only the raw
`sessionData.Challenge` string (`login.go:81`), modelled as `raw`.  The
two encodings are distinguishable (a JSON object starts with a brace, a
base64url challenge cannot), so equality of blobs is equality in this
sum type, and `json.Unmarshal` into `SessionData` succeeds exactly on
the `sessionJSON` form. -/
inductive ChallengeBlob where
  | sessionJSON (s : SessionData)
  | raw (c : String)
deriving Repr, DecidableEq

/-- A row of the `challenges` table: `user_id UUID`, `challenge BYTEA`,
`type VARCHAR` (the Lean field is named `ctype` because `type` is a
keyword), `created_at TIMESTAMP`, `expires_at TIMESTAMP`. -/
structure ChallengeRow where
  userId : Nat
  challenge : ChallengeBlob
  ctype : String
  createdAt : Nat
  expiresAt : Nat
deriving Repr, DecidableEq

/-- The whole database state: the three tables the handlers touch. -/
structure DB where
  users : List UserRow
  credentials : List CredentialRow
  challenges : List ChallengeRow
deriving Repr, DecidableEq

/-- Relying-party configuration consumed by the verifiers: RP id, the
(precomputed) SHA-256 hash of the RP id, the allowed-origins set and the
accepted attestation formats (`webauthn.Config` in `main.go`). -/
structure Config where
  rpID : String
  rpIDHash : List Nat
  allowedOrigins : List String
  attestationFormats : List String
deriving Repr, DecidableEq

/-- `webauthn.Credential` as constructed by the login handlers from the
columns they SELECT (`login.go:33,123`: only `id`, `public_key`,
`sign_count` are read; the `Flags` sub-struct keeps its Go zero value,
i.e. both booleans `false`). -/
structure WebauthnCredential where
  id : List Nat
  publicKey : List Nat
  signCount : Nat
  backupEligible : Bool
  backupState : Bool
deriving Repr, DecidableEq

/-- The credential record returned by the attestation verifier and
persisted by `FinishRegistration` (`register.go:161-173`). -/
structure CredentialRecord where
  id : List Nat
  publicKey : List Nat
  signCount : Nat
  backupEligible : Bool
  backupState : Bool
  attestationType : String
  aaguid : List Nat
deriving Repr, DecidableEq

/-- Error kinds raised inside the verifiers (spec §6 error taxonomy). -/
inductive VerifyErr where
  | challengeMismatch
  | originMismatch
  | rpidMismatch
  | unsupportedAttestation
  | algorithmNotOffered
  | credentialNotFound
  | backupFlagInconsistency
  | invalidSignature
  | possibleCloneDetected
deriving Repr, DecidableEq

/-- Error kinds returned by the four handlers.  Each corresponds to one
`http.Error` call in `register.go` / `login.go`. -/
inductive Err where
  | conflictUserExists
  | userNotFound
  | noCredentials
  | challengeNotFound
  | unmarshalFailed
  | challengeMismatch
  | createCredentialFailed (e : VerifyErr)
  | validateLoginFailed (e : VerifyErr)
deriving Repr, DecidableEq

/-- `SELECT id, username, created_at FROM users WHERE username = $1`. -/
def findUserByName (db : DB) (username : String) : Option UserRow :=
  db.users.find? (fun u => u.username = username)

/-- `SELECT id, username, created_at FROM users WHERE id = $1`. -/
def findUserById (db : DB) (uid : Nat) : Option UserRow :=
  db.users.find? (fun u => u.id = uid)

/-- `SELECT id, public_key, sign_count FROM credentials WHERE user_id = $1`. -/
def credentialsOfUser (db : DB) (uid : Nat) : List CredentialRow :=
  db.credentials.filter (fun c => c.userId = uid)

/-- The projection both login handlers apply to a credential row: only
the three selected columns are carried over, the backup flags are the Go
zero value `false` (`login.go:51-57` and `login.go:141-147`). -/
def toWebauthnCredential (c : CredentialRow) : WebauthnCredential :=
  { id := c.id
    publicKey := c.publicKey
    signCount := c.signCount
    backupEligible := false
    backupState := false }

/-- `SELECT user_id FROM challenges WHERE challenge = $1 AND type = 'login'`
(`login.go:108`): equality of the `challenge` column against the raw
challenge bytes. -/
def findLoginChallenge (db : DB) (challenge : String) : Option ChallengeRow :=
  db.challenges.find? (fun r => r.challenge = ChallengeBlob.raw challenge ∧ r.ctype = "login")

/-- Fold step selecting the row with the greatest `created_at`
(ties keep the earlier row). -/
def pickLatest (acc : Option ChallengeRow) (r : ChallengeRow) : Option ChallengeRow :=
  match acc with
  | none => some r
  | some b => if b.createdAt < r.createdAt then some r else acc

/-- `SELECT user_id, challenge FROM challenges WHERE type = 'registration'
ORDER BY created_at DESC LIMIT 1` (`register.go:109`): the registration
row with the greatest `created_at`, irrespective of the challenge value. -/
def mostRecentRegistration (db : DB) : Option ChallengeRow :=
  (db.challenges.filter (fun r => r.ctype = "registration")).foldl pickLatest none

/-- The parsed credential-creation response handed to
`FinishRegistration` (`protocol.ParseCredentialCreationResponseBody`):
the challenge and origin from the collected client data, the RP-id hash
and attestation format from the attestation object, and the new
credential's extracted data. -/
structure RegistrationResponse where
  challenge : String
  origin : String
  rpIdHash : List Nat
  attestationFormat : String
  credentialId : List Nat
  publicKey : List Nat
  signCount : Nat
  backupEligible : Bool
  backupState : Bool
  attestationType : String
  aaguid : List Nat
  alg : Int
deriving Repr, DecidableEq

/-- The parsed assertion response handed to `FinishLogin`
(`protocol.ParseCredentialRequestResponseBody`).  `signedWithKey` is the
abstraction of the cryptographic signature: it is the (unique) public
key against which this assertion's signature verifies — signature
verification against a stored key succeeds iff the stored key equals
this field. -/
structure AssertionResponse where
  challenge : String
  origin : String
  rpIdHash : List Nat
  credentialId : List Nat
  signCount : Nat
  backupEligible : Bool
  backupState : Bool
  signedWithKey : List Nat
deriving Repr, DecidableEq

/-- Modelled from the spec: the Attestation Verifier (§4.3), implemented
by `webauthn.CreateCredential` of the external go-webauthn library,
whose source is not part of this repository.  Steps, in the spec's
order: challenge match against the session context, origin allow-list
membership, RP-id-hash match, attestation-format allow-list check,
algorithm offered in the session's parameter list; on success a
fully-populated credential record is returned and nothing is
persisted. -/
def CreateCredential (cfg : Config) (session : SessionData)
    (resp : RegistrationResponse) : Except VerifyErr CredentialRecord :=
  if resp.challenge ≠ session.challenge then .error .challengeMismatch
  else if ¬ cfg.allowedOrigins.contains resp.origin then .error .originMismatch
  else if resp.rpIdHash ≠ cfg.rpIDHash then .error .rpidMismatch
  else if ¬ cfg.attestationFormats.contains resp.attestationFormat then
    .error .unsupportedAttestation
  else if ¬ session.credParams.contains resp.alg then .error .algorithmNotOffered
  else .ok
    { id := resp.credentialId
      publicKey := resp.publicKey
      signCount := resp.signCount
      backupEligible := resp.backupEligible
      backupState := resp.backupState
      attestationType := resp.attestationType
      aaguid := resp.aaguid }

/-- Modelled from the spec: the Assertion Verifier (§4.4) together with
the credential resolution of §4.5, implemented by
`webauthn.ValidateLogin` of the external go-webauthn library, whose
source is not part of this repository.  Steps, in the spec's order:
challenge/origin/RP-id checks (§4.4.1); resolve the credential by the id
embedded in the assertion among the user's credentials; per-flag backup
policy (§4.4.2: `backupEligible` must equal the stored value,
`backupState` is only recorded, never rejected); signature verification
against the stored public key (§4.4.3); counter check (§4.4.4: both-zero
is accepted without a clone signal, a strictly greater presented counter
is accepted, anything else is `possibleCloneDetected`).  On success it
returns the credential id and the new counter value for the caller to
persist (§4.4.5). -/
def ValidateLogin (cfg : Config) (session : SessionData)
    (creds : List WebauthnCredential) (resp : AssertionResponse) :
    Except VerifyErr (List Nat × Nat) :=
  if session.challenge ≠ resp.challenge then .error .challengeMismatch
  else if ¬ cfg.allowedOrigins.contains resp.origin then .error .originMismatch
  else if resp.rpIdHash ≠ cfg.rpIDHash then .error .rpidMismatch
  else
    match creds.find? (fun c => c.id = resp.credentialId) with
    | none => .error .credentialNotFound
    | some cred =>
      if cred.backupEligible ≠ resp.backupEligible then .error .backupFlagInconsistency
      else if cred.publicKey ≠ resp.signedWithKey then .error .invalidSignature
      else if resp.signCount = 0 ∧ cred.signCount = 0 then .ok (cred.id, cred.signCount)
      else if cred.signCount < resp.signCount then .ok (cred.id, resp.signCount)
      else .error .possibleCloneDetected

/-- `BeginRegistration` (`register.go:16-92`).  Inputs beyond the state:
the requested username, the fresh user id and clock reading produced by
the database (`gen_random_uuid()`, `CURRENT_TIMESTAMP`), and the session
data `s` generated by the WebAuthn library.  The handler rejects any
username that already has a user row, then inserts the new user, then
inserts a challenge row holding the JSON serialization of the whole
session data under type `registration` with `expires_at =
sessionData.Expires`. -/
def BeginRegistration (db : DB) (username : String) (nid : Nat) (now : Nat)
    (s : SessionData) : Except Err DB :=
  match findUserByName db username with
  | some _ => .error .conflictUserExists
  | none =>
    let user : UserRow := { id := nid, username := username, createdAt := now }
    let row : ChallengeRow :=
      { userId := nid, challenge := ChallengeBlob.sessionJSON s,
        ctype := "registration", createdAt := now, expiresAt := s.expires }
    .ok { db with users := db.users ++ [user], challenges := db.challenges ++ [row] }

/-- `FinishRegistration` (`register.go:94-192`).  Looks up the most
recent registration challenge row (irrespective of the response's
challenge value), unmarshals the stored session data, pre-checks that
its challenge equals the response's, loads the user, runs the
attestation verifier, inserts the new credential row and deletes every
registration challenge of that user.  `now` is the clock reading used
for the credential's `created_at` (`time.Now()`). -/
def FinishRegistration (cfg : Config) (db : DB) (resp : RegistrationResponse)
    (now : Nat) : Except Err DB :=
  match mostRecentRegistration db with
  | none => .error .challengeNotFound
  | some row =>
    match row.challenge with
    | ChallengeBlob.raw _ => .error .unmarshalFailed
    | ChallengeBlob.sessionJSON session =>
      if session.challenge ≠ resp.challenge then .error .challengeMismatch
      else
        match findUserById db row.userId with
        | none => .error .userNotFound
        | some user =>
          match CreateCredential cfg session resp with
          | .error e => .error (.createCredentialFailed e)
          | .ok cred =>
            let newCred : CredentialRow :=
              { id := cred.id, userId := user.id, publicKey := cred.publicKey,
                signCount := cred.signCount, backupEligible := cred.backupEligible,
                backupState := cred.backupState, attestationType := cred.attestationType,
                aaguid := cred.aaguid, createdAt := now }
            .ok { db with
              credentials := db.credentials ++ [newCred],
              challenges := db.challenges.filter
                (fun r => ¬(r.userId = user.id ∧ r.ctype = "registration")) }

/-- `BeginLogin` (`login.go:13-93`).  Inputs beyond the state: the
requested username, the clock reading for the challenge row's
`created_at`, and the session data `s` generated by the WebAuthn
library.  The handler looks the user up (login never creates one), loads
the user's credentials, rejects when there are none, and stores ONLY the
raw challenge string — not the serialized session data — under type
`login` with `expires_at = sessionData.Expires` (`login.go:81`). -/
def BeginLogin (db : DB) (username : String) (now : Nat) (s : SessionData) :
    Except Err DB :=
  match findUserByName db username with
  | none => .error .userNotFound
  | some user =>
    if (credentialsOfUser db user.id).isEmpty then .error .noCredentials
    else
      let row : ChallengeRow :=
        { userId := user.id, challenge := ChallengeBlob.raw s.challenge,
          ctype := "login", createdAt := now, expiresAt := s.expires }
      .ok { db with challenges := db.challenges ++ [row] }

/-- The `SessionData` value `FinishLogin` hand-reconstructs
(`login.go:156-159`): only `Challenge` and `UserID` are populated; the
RP id, the allowed-credentials list, the expiry and the user-verification
requirement all keep their Go zero values. -/
def reconstructedLoginSession (challenge : String) (userId : Nat) : SessionData :=
  { challenge := challenge
    relyingPartyID := ""
    userID := [userId]
    allowedCredentialIDs := []
    expires := 0
    userVerification := ""
    credParams := [] }

/-- `FinishLogin` (`login.go:95-187`).  Looks the challenge row up by
the raw challenge value and type `login` (its `expires_at` is never
read), loads the user and the user's credentials (only id, public key
and sign count — the backup flags are left at their zero value `false`),
hand-reconstructs the session data from the challenge alone, runs the
assertion verifier, persists the returned counter into the matching
credential row and deletes the challenge row.  On success the user's
name is returned. -/
def FinishLogin (cfg : Config) (db : DB) (resp : AssertionResponse) :
    Except Err (DB × String) :=
  match findLoginChallenge db resp.challenge with
  | none => .error .challengeNotFound
  | some row =>
    match findUserById db row.userId with
    | none => .error .userNotFound
    | some user =>
      let creds := (credentialsOfUser db user.id).map toWebauthnCredential
      let session := reconstructedLoginSession resp.challenge user.id
      match ValidateLogin cfg session creds resp with
      | .error e => .error (.validateLoginFailed e)
      | .ok (credId, newCount) =>
        .ok ({ db with
          credentials := db.credentials.map
            (fun c => if c.id = credId then { c with signCount := newCount } else c),
          challenges := db.challenges.filter
            (fun r => ¬(r.challenge = ChallengeBlob.raw resp.challenge ∧ r.ctype = "login")) },
          user.username)

/-- The state a handler leaves behind: every error path in the Go
handlers returns before the first mutating SQL statement, so an error
leaves the database unchanged. -/
def resultState (db : DB) (r : Except Err DB) : DB :=
  match r with
  | .ok db' => db'
  | .error _ => db

/-- `db` with every challenge row's `expires_at` overwritten by `t`:
used to show the Finish handlers never read that column. -/
def withExpiry (db : DB) (t : Nat) : DB :=
  { db with challenges := db.challenges.map (fun r => { r with expiresAt := t }) }

/-! Concrete fixtures, used by the witness and counterexample theorems. -/

/-- A relying-party configuration matching `main.go`'s local setup. -/
def cfg0 : Config :=
  { rpID := "localhost", rpIDHash := [7, 7],
    allowedOrigins := ["http://localhost:5173"],
    attestationFormats := ["none"] }

/-- A registered user. -/
def alice : UserRow := { id := 1, username := "alice", createdAt := 10 }

/-- Alice's stored credential, `sign_count = 0`, backup flags clear. -/
def aliceCred : CredentialRow :=
  { id := [9, 9], userId := 1, publicKey := [5, 5], signCount := 0,
    backupEligible := false, backupState := false, attestationType := "none",
    aaguid := [0], createdAt := 10 }

/-- A login-ceremony session context as the library generates it at
Begin time: nonempty allowed-credentials list, nontrivial expiry. -/
def sLogin0 : SessionData :=
  { challenge := "chalL", relyingPartyID := "localhost", userID := [1],
    allowedCredentialIDs := [[9, 9]], expires := 1000,
    userVerification := "preferred", credParams := [] }

/-- State before `BeginLogin`: alice and her credential, no pending
challenge. -/
def dbInit : DB := { users := [alice], credentials := [aliceCred], challenges := [] }

/-- State with alice's pending login challenge (as `BeginLogin` leaves
it). -/
def dbL0 : DB :=
  { users := [alice], credentials := [aliceCred],
    challenges := [{ userId := 1, challenge := ChallengeBlob.raw "chalL",
                     ctype := "login", createdAt := 20, expiresAt := 1000 }] }

/-- A well-formed assertion response for alice's credential, presented
counter `1`. -/
def respL0 : AssertionResponse :=
  { challenge := "chalL", origin := "http://localhost:5173", rpIdHash := [7, 7],
    credentialId := [9, 9], signCount := 1, backupEligible := false,
    backupState := false, signedWithKey := [5, 5] }

/-- The state a successful `FinishLogin cfg0 dbL0 respL0` leaves:
`sign_count` bumped to 1, challenge row deleted. -/
def dbL0After : DB :=
  { users := [alice],
    credentials := [{ aliceCred with signCount := 1 }],
    challenges := [] }

/-- A registration-ceremony session context. -/
def sReg0 : SessionData :=
  { challenge := "chalR", relyingPartyID := "localhost", userID := [2],
    allowedCredentialIDs := [], expires := 5,
    userVerification := "", credParams := [-7] }

/-- A well-formed credential-creation response for `sReg0`. -/
def respR0 : RegistrationResponse :=
  { challenge := "chalR", origin := "http://localhost:5173", rpIdHash := [7, 7],
    attestationFormat := "none", credentialId := [4, 4], publicKey := [6, 6],
    signCount := 0, backupEligible := false, backupState := false,
    attestationType := "none", aaguid := [0], alg := -7 }

/-- Bob's pending registration row, `expires_at = 5`. -/
def rowExp : ChallengeRow :=
  { userId := 2, challenge := ChallengeBlob.sessionJSON sReg0,
    ctype := "registration", createdAt := 2, expiresAt := 5 }

/-- State with bob's pending registration session whose `expires_at`
(5) is long past the clock reading (100) used at Finish. -/
def dbExpReg : DB :=
  { users := [{ id := 2, username := "bob", createdAt := 1 }],
    credentials := [],
    challenges := [rowExp] }

/-- The state a successful `FinishRegistration cfg0 dbExpReg respR0 100`
leaves: bob's credential stored, his registration session deleted. -/
def dbRegDone : DB :=
  { users := [{ id := 2, username := "bob", createdAt := 1 }],
    credentials := [{ id := [4, 4], userId := 2, publicKey := [6, 6],
                      signCount := 0, backupEligible := false, backupState := false,
                      attestationType := "none", aaguid := [0], createdAt := 100 }],
    challenges := [] }

/-- Alice with no credentials registered yet. -/
def dbNoCreds : DB := { users := [alice], credentials := [], challenges := [] }

/-- `dbL0` with the login challenge already expired (`expires_at = 5`,
far below every other timestamp in the state). -/
def dbLExp : DB := withExpiry dbL0 5

/-- State for the backup-flag claim: alice's credential was stored at
registration with `backup_eligible = true`, `backup_state = true`. -/
def dbBF : DB :=
  { users := [alice],
    credentials := [{ aliceCred with backupEligible := true, backupState := true }],
    challenges := [{ userId := 1, challenge := ChallengeBlob.raw "chalL",
                     ctype := "login", createdAt := 20, expiresAt := 1000 }] }

/-- Assertion whose `backupEligible` flag equals the value stored at
registration (`true`). -/
def respBFMatch : AssertionResponse := { respL0 with backupEligible := true }

/-- An assertion over alice's pending challenge whose signature does not
verify against her stored key (verification fails, lookup succeeded). -/
def respBadSig : AssertionResponse := { respL0 with signedWithKey := [8] }

/-- First pending registration session (user 1, challenge `c1`, older). -/
def s1 : SessionData :=
  { challenge := "c1", relyingPartyID := "localhost", userID := [1],
    allowedCredentialIDs := [], expires := 1000,
    userVerification := "", credParams := [-7] }

/-- Second pending registration session (user 2, challenge `c2`, newer). -/
def s2 : SessionData :=
  { challenge := "c2", relyingPartyID := "localhost", userID := [2],
    allowedCredentialIDs := [], expires := 1000,
    userVerification := "", credParams := [-7] }

/-- The older of the two concurrently pending registration rows. -/
def rowS1 : ChallengeRow :=
  { userId := 1, challenge := ChallengeBlob.sessionJSON s1,
    ctype := "registration", createdAt := 10, expiresAt := 1000 }

/-- The newer of the two concurrently pending registration rows. -/
def rowS2 : ChallengeRow :=
  { userId := 2, challenge := ChallengeBlob.sessionJSON s2,
    ctype := "registration", createdAt := 20, expiresAt := 1000 }

/-- State with two concurrently pending registration sessions. -/
def dbTwo : DB :=
  { users := [alice, { id := 2, username := "bob", createdAt := 1 }],
    credentials := [],
    challenges := [rowS1, rowS2] }

/-- A well-formed credential-creation response for session `s1`. -/
def respC6 : RegistrationResponse := { respR0 with challenge := "c1" }

/-- The empty database. -/
def dbEmpty : DB := { users := [], credentials := [], challenges := [] }

/-- The state `BeginRegistration dbEmpty "carol" 3 30 sReg0` produces:
the user row exists already, before any Finish, and the pending
challenge row holds the full serialized session context. -/
def dbRegCarol : DB :=
  { users := [{ id := 3, username := "carol", createdAt := 30 }],
    credentials := [],
    challenges := [{ userId := 3, challenge := ChallengeBlob.sessionJSON sReg0,
                     ctype := "registration", createdAt := 30, expiresAt := 5 }] }

end LearnPasskeys

deriving instance DecidableEq for Except

namespace LearnPasskeys

/-- Unfolding equation for `FinishLogin` once the challenge row and the
user row have been resolved. -/
theorem finishLogin_eq (cfg : Config) (db : DB) (resp : AssertionResponse)
    (row : ChallengeRow) (user : UserRow)
    (h1 : findLoginChallenge db resp.challenge = some row)
    (h2 : findUserById db row.userId = some user) :
    FinishLogin cfg db resp =
      match ValidateLogin cfg (reconstructedLoginSession resp.challenge user.id)
          ((credentialsOfUser db user.id).map toWebauthnCredential) resp with
      | .error e => .error (.validateLoginFailed e)
      | .ok (credId, newCount) =>
        .ok ({ db with
          credentials := db.credentials.map
            (fun c => if c.id = credId then { c with signCount := newCount } else c),
          challenges := db.challenges.filter
            (fun r => ¬(r.challenge = ChallengeBlob.raw resp.challenge ∧
              r.ctype = "login")) },
          user.username) := by
  unfold FinishLogin
  simp only [h1, h2]

/-- If `FinishLogin` succeeds, the challenge row and the user row were
resolved. -/
theorem finishLogin_ok_resolved (cfg : Config) (db : DB)
    (resp : AssertionResponse) (out : DB × String)
    (h : FinishLogin cfg db resp = .ok out) :
    ∃ row user, findLoginChallenge db resp.challenge = some row ∧
      findUserById db row.userId = some user := by
  unfold FinishLogin at h
  cases h1 : findLoginChallenge db resp.challenge with
  | none => simp only [h1] at h; exact absurd h (by simp)
  | some row =>
    cases h2 : findUserById db row.userId with
    | none => simp only [h1, h2] at h; exact absurd h (by simp)
    | some user => exact ⟨row, user, rfl, h2⟩

/-- On the resolved path, `ValidateLogin`'s outcome is entirely decided
by the counter comparison once the fixed checks pass. -/
theorem validateLogin_counter (cfg : Config) (session : SessionData)
    (creds : List WebauthnCredential) (resp : AssertionResponse)
    (cred : WebauthnCredential)
    (hs : session.challenge = resp.challenge)
    (h4 : cfg.allowedOrigins.contains resp.origin = true)
    (h5 : resp.rpIdHash = cfg.rpIDHash)
    (h3 : creds.find? (fun c => c.id = resp.credentialId) = some cred)
    (h6 : cred.backupEligible = resp.backupEligible)
    (h7 : cred.publicKey = resp.signedWithKey) :
    ValidateLogin cfg session creds resp =
      if resp.signCount = 0 ∧ cred.signCount = 0 then .ok (cred.id, cred.signCount)
      else if cred.signCount < resp.signCount then .ok (cred.id, resp.signCount)
      else .error .possibleCloneDetected := by
  unfold ValidateLogin
  rw [hs, h5, h3]
  have h4' : resp.origin ∈ cfg.allowedOrigins := by simpa using h4
  simp [h4', h6, h7]

/-- A successful `ValidateLogin` resolved some credential with the id
embedded in the assertion. -/
theorem validateLogin_ok_found (cfg : Config) (session : SessionData)
    (creds : List WebauthnCredential) (resp : AssertionResponse)
    (p : List Nat × Nat)
    (h : ValidateLogin cfg session creds resp = .ok p) :
    ∃ cred, creds.find? (fun c => c.id = resp.credentialId) = some cred := by
  unfold ValidateLogin at h
  split at h
  · exact absurd h (by simp)
  · split at h
    · exact absurd h (by simp)
    · split at h
      · exact absurd h (by simp)
      · split at h
        · exact absurd h (by simp)
        · next cred hfind => exact ⟨cred, hfind⟩

/-- A credential found (by id) among the projections of the rows loaded
for user `uid` comes from a stored credential row of that user with that
id. -/
theorem find_mapped_credential (db : DB) (uid : Nat) (cid : List Nat)
    (wc : WebauthnCredential)
    (h : ((credentialsOfUser db uid).map toWebauthnCredential).find?
          (fun c => c.id = cid) = some wc) :
    ∃ cred, cred ∈ db.credentials ∧ cred.userId = uid ∧ cred.id = cid := by
  have hmem : wc ∈ (credentialsOfUser db uid).map toWebauthnCredential :=
    List.mem_of_find?_eq_some h
  have hid : wc.id = cid := by simpa using List.find?_some h
  obtain ⟨cred, hcred, hwc⟩ := List.mem_map.mp hmem
  have hfil := hcred
  unfold credentialsOfUser at hfil
  obtain ⟨hm, hu⟩ := List.mem_filter.mp hfil
  refine ⟨cred, hm, by simpa using hu, ?_⟩
  have : (toWebauthnCredential cred).id = cred.id := rfl
  rw [hwc] at this
  rw [← this]; exact hid

/-- The fold underlying `mostRecentRegistration` only ever returns an
element of the list (or the accumulator). -/
theorem foldl_pickLatest_mem (l : List ChallengeRow) :
    ∀ (acc : Option ChallengeRow) (b : ChallengeRow),
      l.foldl pickLatest acc = some b → b ∈ l ∨ acc = some b := by
  induction l with
  | nil => intro acc b h; exact Or.inr h
  | cons r t ih =>
    intro acc b h
    rcases ih (pickLatest acc r) b h with hm | he
    · exact Or.inl (List.mem_cons_of_mem r hm)
    · cases acc with
      | none =>
        simp only [pickLatest, Option.some.injEq] at he
        exact Or.inl (he ▸ List.mem_cons_self r t)
      | some a =>
        simp only [pickLatest] at he
        by_cases hlt : a.createdAt < r.createdAt
        · rw [if_pos hlt] at he
          simp only [Option.some.injEq] at he
          exact Or.inl (he ▸ List.mem_cons_self r t)
        · rw [if_neg hlt] at he
          exact Or.inr he

/-- If `FinishRegistration` succeeds, the most recent registration row
carried a serialized session, the user was resolved, and the resulting
state dropped every registration challenge of that user. -/
theorem finishRegistration_ok_resolved (cfg : Config) (db : DB)
    (resp : RegistrationResponse) (now : Nat) (db' : DB)
    (h : FinishRegistration cfg db resp now = .ok db') :
    ∃ row session user, mostRecentRegistration db = some row ∧
      row.challenge = ChallengeBlob.sessionJSON session ∧
      findUserById db row.userId = some user ∧
      db'.challenges = db.challenges.filter
        (fun r => ¬(r.userId = user.id ∧ r.ctype = "registration")) ∧
      user.id = row.userId := by
  unfold FinishRegistration at h
  cases h1 : mostRecentRegistration db with
  | none => simp only [h1] at h; exact absurd h (by simp)
  | some row =>
    cases hb : row.challenge with
    | raw c => simp only [h1, hb] at h; exact absurd h (by simp)
    | sessionJSON session =>
      simp only [h1, hb] at h
      split at h
      · exact absurd h (by simp)
      · cases h2 : findUserById db row.userId with
        | none => simp only [h2] at h; exact absurd h (by simp)
        | some user =>
          simp only [h2] at h
          cases hc : CreateCredential cfg session resp with
          | error e => simp only [hc] at h; exact absurd h (by simp)
          | ok cred =>
            simp only [hc] at h
            have hdb := Except.ok.inj h
            refine ⟨row, session, user, rfl, hb, h2, ?_, ?_⟩
            · exact (congrArg DB.challenges hdb).symm
            · have h2' : db.users.find? (fun u => u.id = row.userId) = some user := h2
              simpa using List.find?_some h2'

/-- The row `mostRecentRegistration` returns is a stored registration
row. -/
theorem mostRecentRegistration_mem (db : DB) (row : ChallengeRow)
    (h : mostRecentRegistration db = some row) :
    row ∈ db.challenges ∧ row.ctype = "registration" := by
  unfold mostRecentRegistration at h
  rcases foldl_pickLatest_mem _ none row h with hm | he
  · obtain ⟨hmem, hp⟩ := List.mem_filter.mp hm
    exact ⟨hmem, by simpa using hp⟩
  · exact absurd he (by simp)

/-- C1.  The session-context round trip fails on the login path: at
`BeginLogin` only the raw challenge string is persisted — not the
serialized session context — and the value handed to the verifier at
`FinishLogin` is the hand-reconstruction `reconstructedLoginSession`,
which drops the relying-party id, the allowed-credentials list, the
expiry and the user-verification requirement generated at Begin.  (The
registration path, by contrast, does persist the whole context.)  The
theorem evaluates the code at the failing input: a login ceremony begun
with a session carrying a nonempty allowed-credentials list and a
nontrivial expiry. -/
theorem loginSessionContext_not_roundTripped :
    (BeginRegistration dbEmpty "carol" 3 30 sReg0 = .ok dbRegCarol ∧
      ∃ row ∈ dbRegCarol.challenges,
        row.challenge = ChallengeBlob.sessionJSON sReg0) ∧
    (BeginLogin dbInit "alice" 20 sLogin0 = .ok dbL0 ∧
      (∃ row ∈ dbL0.challenges, row.ctype = "login" ∧
        row.challenge = ChallengeBlob.raw sLogin0.challenge) ∧
      (∀ row ∈ dbL0.challenges,
        row.challenge ≠ ChallengeBlob.sessionJSON sLogin0) ∧
      reconstructedLoginSession sLogin0.challenge alice.id ≠ sLogin0) := by
  decide

/-- C4.  Expiry is NOT enforced at read time: both Finish handlers look
the challenge row up without consulting its `expires_at` column
(`login.go:108`, `register.go:109`), so an expired-but-present record is
accepted.  `FinishLogin` takes no clock reading at all, and its result
stays successful for every value of the stored expiry; `FinishRegistration`
succeeds at clock reading 100 on a session whose `expires_at` is 5. -/
theorem finish_ignores_expiry :
    (∃ row ∈ dbLExp.challenges, row.ctype = "login" ∧ row.expiresAt = 5) ∧
    (∀ t, (FinishLogin cfg0 (withExpiry dbL0 t) respL0).isOk = true) ∧
    (∃ row ∈ dbExpReg.challenges, row.ctype = "registration" ∧
      row.expiresAt = 5) ∧
    5 < 100 ∧
    (FinishRegistration cfg0 dbExpReg respR0 100).isOk = true := by
  refine ⟨by decide, fun t => rfl, by decide, by decide, by decide⟩

/-- C5.  The backup-flag policy cannot act on the stored values:
`FinishLogin` loads only `id`, `public_key` and `sign_count`
(`login.go:123`), leaving both flags of the in-memory credential at the
Go zero value `false`.  For a credential registered with
`backup_eligible = true`, an assertion presenting `backupEligible = true`
(equal to the stored value) with only `backupState` differing — which
the claim says must not fail on that account — is REJECTED with
`BackupFlagInconsistency`, while an assertion presenting
`backupEligible = false` (differing from the stored value — the claim
says it must fail) SUCCEEDS. -/
theorem finishLogin_backup_flags_not_loaded :
    (∃ c ∈ dbBF.credentials, c.id = respL0.credentialId ∧
      c.backupEligible = true ∧ c.backupState = true) ∧
    (respBFMatch.backupEligible = true ∧ respBFMatch.backupState = false ∧
      FinishLogin cfg0 dbBF respBFMatch =
        .error (.validateLoginFailed .backupFlagInconsistency)) ∧
    (respL0.backupEligible = false ∧
      (FinishLogin cfg0 dbBF respL0).isOk = true) ∧
    (toWebauthnCredential
      { aliceCred with backupEligible := true, backupState := true }).backupEligible
      = false := by
  decide

/-- C2 counterexample.  A first `FinishLogin` that looked the challenge
up but failed signature verification does NOT delete the challenge
record: every error path of the handler returns before the `DELETE`
statement, so the state is unchanged and a second identical Finish call
(running on the same state) again reaches signature verification instead
of failing with challenge-not-found, contradicting the claim. -/
theorem failedFinish_challenge_not_consumed :
    FinishLogin cfg0 dbL0 respBadSig =
      .error (.validateLoginFailed .invalidSignature) ∧
    findLoginChallenge dbL0 respBadSig.challenge ≠ none ∧
    FinishLogin cfg0 dbL0 respBadSig ≠ .error .challengeNotFound := by
  decide

/-- C8.  `BeginLogin` error behavior: an unknown username fails with
not-found (login never creates a user), an existing user with zero
stored credentials fails with no-credentials, and every error path
leaves the state unchanged — no user created, no challenge persisted. -/
theorem beginLogin_error_behavior (db : DB) (username : String) (now : Nat)
    (s : SessionData) :
    (findUserByName db username = none →
      BeginLogin db username now s = .error .userNotFound) ∧
    (∀ user, findUserByName db username = some user →
      credentialsOfUser db user.id = [] →
      BeginLogin db username now s = .error .noCredentials) ∧
    (∀ e, BeginLogin db username now s = .error e →
      resultState db (BeginLogin db username now s) = db) := by
  refine ⟨?_, ?_, ?_⟩
  · intro h
    unfold BeginLogin
    simp only [h]
  · intro user h hc
    unfold BeginLogin
    simp only [h, hc]
    rfl
  · intro e h
    unfold resultState
    simp only [h]

/-- C8 witness: both error cases at concrete states. -/
theorem beginLogin_error_behavior_witness :
    (BeginLogin dbEmpty "alice" 20 sLogin0 = .error .userNotFound ∧
      resultState dbEmpty (BeginLogin dbEmpty "alice" 20 sLogin0) = dbEmpty) ∧
    (BeginLogin dbNoCreds "alice" 20 sLogin0 = .error .noCredentials ∧
      resultState dbNoCreds (BeginLogin dbNoCreds "alice" 20 sLogin0) = dbNoCreds) := by
  have h1 := (beginLogin_error_behavior dbEmpty "alice" 20 sLogin0).1 (by decide)
  have h2 := (beginLogin_error_behavior dbNoCreds "alice" 20 sLogin0).2.1 alice
    (by decide) (by decide)
  exact ⟨⟨h1, (beginLogin_error_behavior dbEmpty "alice" 20 sLogin0).2.2 _ h1⟩,
    ⟨h2, (beginLogin_error_behavior dbNoCreds "alice" 20 sLogin0).2.2 _ h2⟩⟩

/-- C10.  Eager user creation blocks retry: a successful
`BeginRegistration` leaves the user row in place before any Finish, and
the existence check of `BeginRegistration` rejects — with Conflict — any
username that already has a user row, in any state and regardless of
whether that user owns any credentials.  Hence an abandoned registration
permanently blocks re-registration of the username (no handler ever
deletes a user row). -/
theorem beginRegistration_eager_user_blocks_retry
    (db db1 : DB) (u : String) (nid now : Nat) (s : SessionData)
    (h : BeginRegistration db u nid now s = .ok db1) :
    (∃ user ∈ db1.users, user.username = u) ∧
    (∀ db2 : DB, (∃ user ∈ db2.users, user.username = u) →
      ∀ nid2 now2 s2, BeginRegistration db2 u nid2 now2 s2 =
        .error .conflictUserExists) := by
  constructor
  · unfold BeginRegistration at h
    cases hf : findUserByName db u with
    | some w => simp only [hf] at h; exact absurd h (by simp)
    | none =>
      simp only [hf] at h
      have hdb := Except.ok.inj h
      refine ⟨{ id := nid, username := u, createdAt := now }, ?_, rfl⟩
      rw [← hdb]
      simp
  · rintro db2 ⟨user, hm, hu⟩ nid2 now2 s2
    have hsome : (db2.users.find? (fun x => x.username = u)).isSome := by
      rw [List.find?_isSome]
      exact ⟨user, hm, by simp [hu]⟩
    unfold BeginRegistration findUserByName
    cases hf : db2.users.find? (fun x => x.username = u) with
    | none => rw [hf] at hsome; simp at hsome
    | some w => simp only [hf]

/-- C10 witness: carol's registration is begun (user row created) and
never finished; a later `BeginRegistration` for "carol" gets Conflict. -/
theorem beginRegistration_eager_user_blocks_retry_witness :
    BeginRegistration dbRegCarol "carol" 4 40 sReg0 =
      .error .conflictUserExists :=
  (beginRegistration_eager_user_blocks_retry dbEmpty dbRegCarol "carol" 3 30 sReg0
    (by decide)).2 dbRegCarol
    ⟨{ id := 3, username := "carol", createdAt := 30 }, by decide, rfl⟩ 4 40 sReg0

/-- C6 amended.  `FinishRegistration` consults only the most recently
created registration session, regardless of the response's challenge: if
no registration session exists at all it fails with challenge-not-found;
if the most recent session's stored challenge differs from the
response's, it fails with a challenge mismatch (it does not fall back to
the pending session whose challenge does match). -/
theorem finishRegistration_most_recent_lookup (cfg : Config) (db : DB)
    (resp : RegistrationResponse) (now : Nat) :
    (mostRecentRegistration db = none →
      FinishRegistration cfg db resp now = .error .challengeNotFound) ∧
    (∀ row s, mostRecentRegistration db = some row →
      row.challenge = ChallengeBlob.sessionJSON s →
      s.challenge ≠ resp.challenge →
      FinishRegistration cfg db resp now = .error .challengeMismatch) := by
  constructor
  · intro h
    unfold FinishRegistration
    simp only [h]
  · intro row s h hb hch
    unfold FinishRegistration
    simp only [h, hb]
    rw [if_pos hch]

/-- C6 amended witness: with no session pending the call fails with
challenge-not-found; with two sessions pending and a response matching
the older one, the newer session is consulted and the call fails with a
challenge mismatch. -/
theorem finishRegistration_most_recent_lookup_witness :
    FinishRegistration cfg0 dbEmpty respC6 30 = .error .challengeNotFound ∧
    FinishRegistration cfg0 dbTwo respC6 30 = .error .challengeMismatch :=
  ⟨(finishRegistration_most_recent_lookup cfg0 dbEmpty respC6 30).1 (by decide),
   (finishRegistration_most_recent_lookup cfg0 dbTwo respC6 30).2 rowS2 s2
     (by decide) (by decide) (by decide)⟩

/-- C6 counterexample.  Two registration sessions are pending; the
response's challenge matches the OLDER one (`rowS1`, holding session
`s1`), which the attestation verifier would accept.  The claim says the
call must use the session stored under the response's own challenge and
succeed; the code instead consults only the most recently created
registration row and fails with a challenge mismatch. -/
theorem finishRegistration_ignores_matching_session :
    rowS1 ∈ dbTwo.challenges ∧ rowS1.ctype = "registration" ∧
    rowS1.challenge = ChallengeBlob.sessionJSON s1 ∧
    s1.challenge = respC6.challenge ∧
    (CreateCredential cfg0 s1 respC6).isOk = true ∧
    FinishRegistration cfg0 dbTwo respC6 30 = .error .challengeMismatch := by
  decide

/-- C3.  Counter monotonicity and clone rejection on the resolved login
path (assertion verifier modelled from spec §4.4; the counter policy is
not in the repository's source tree).  With the challenge row, user and
credential resolved and the fixed checks passing: a presented counter
`M ≤ N` (stored) that is not the both-zero case fails with a clone
signal; `M > N` succeeds and the credential row's persisted `sign_count`
becomes `M`; the both-zero case succeeds without a clone signal, the
counter staying 0. -/
theorem finishLogin_counter_policy (cfg : Config) (db : DB)
    (resp : AssertionResponse) (row : ChallengeRow) (user : UserRow)
    (cred : WebauthnCredential)
    (h1 : findLoginChallenge db resp.challenge = some row)
    (h2 : findUserById db row.userId = some user)
    (h3 : ((credentialsOfUser db user.id).map toWebauthnCredential).find?
            (fun c => c.id = resp.credentialId) = some cred)
    (h4 : cfg.allowedOrigins.contains resp.origin = true)
    (h5 : resp.rpIdHash = cfg.rpIDHash)
    (h6 : cred.backupEligible = resp.backupEligible)
    (h7 : cred.publicKey = resp.signedWithKey) :
    (resp.signCount ≤ cred.signCount ∧
        ¬(resp.signCount = 0 ∧ cred.signCount = 0) →
      FinishLogin cfg db resp =
        .error (.validateLoginFailed .possibleCloneDetected)) ∧
    (cred.signCount < resp.signCount →
      FinishLogin cfg db resp = .ok
        ({ db with
          credentials := db.credentials.map (fun c =>
            if c.id = cred.id then { c with signCount := resp.signCount } else c),
          challenges := db.challenges.filter (fun r =>
            ¬(r.challenge = ChallengeBlob.raw resp.challenge ∧
              r.ctype = "login")) },
          user.username)) ∧
    (resp.signCount = 0 ∧ cred.signCount = 0 →
      FinishLogin cfg db resp = .ok
        ({ db with
          credentials := db.credentials.map (fun c =>
            if c.id = cred.id then { c with signCount := cred.signCount } else c),
          challenges := db.challenges.filter (fun r =>
            ¬(r.challenge = ChallengeBlob.raw resp.challenge ∧
              r.ctype = "login")) },
          user.username)) := by
  have he := finishLogin_eq cfg db resp row user h1 h2
  have hv := validateLogin_counter cfg
    (reconstructedLoginSession resp.challenge user.id)
    ((credentialsOfUser db user.id).map toWebauthnCredential) resp cred
    rfl h4 h5 h3 h6 h7
  refine ⟨?_, ?_, ?_⟩
  · rintro ⟨hle, hnz⟩
    rw [he, hv, if_neg hnz, if_neg (Nat.not_lt.mpr hle)]
  · intro hlt
    have hnz : ¬(resp.signCount = 0 ∧ cred.signCount = 0) := by
      rintro ⟨hm0, _⟩
      omega
    rw [he, hv, if_neg hnz, if_pos hlt]
  · intro hz
    rw [he, hv, if_pos hz]

/-- C3 witness: alice's stored counter is 0, the assertion presents 1,
the login succeeds and the persisted counter becomes 1. -/
theorem finishLogin_counter_policy_witness :
    FinishLogin cfg0 dbL0 respL0 = .ok (dbL0After, "alice") := by
  have h := (finishLogin_counter_policy cfg0 dbL0 respL0
    { userId := 1, challenge := ChallengeBlob.raw "chalL", ctype := "login",
      createdAt := 20, expiresAt := 1000 }
    alice (toWebauthnCredential aliceCred)
    (by decide) (by decide) (by decide) (by decide) (by decide) (by decide)
    (by decide)).2.1 (by decide)
  exact h.trans (by decide)

/-- C7.  A successful `FinishLogin` only ever validates a credential
stored for the very user the login session (challenge) was issued to:
the handler loads exclusively that user's credential rows, and the
verifier (modelled from spec §4.4/§4.5) resolves the assertion's
credential id within that list, failing when absent — so an assertion
naming another user's credential cannot succeed. -/
theorem finishLogin_rejects_cross_user (cfg : Config) (db : DB)
    (resp : AssertionResponse) (out : DB × String)
    (h : FinishLogin cfg db resp = .ok out) :
    ∃ row, findLoginChallenge db resp.challenge = some row ∧
      ∃ cred, cred ∈ db.credentials ∧ cred.userId = row.userId ∧
        cred.id = resp.credentialId := by
  obtain ⟨row, user, h1, h2⟩ := finishLogin_ok_resolved cfg db resp out h
  have h2' : db.users.find? (fun u => u.id = row.userId) = some user := h2
  have huid : user.id = row.userId := by simpa using List.find?_some h2'
  rw [finishLogin_eq cfg db resp row user h1 h2] at h
  cases hv : ValidateLogin cfg (reconstructedLoginSession resp.challenge user.id)
      ((credentialsOfUser db user.id).map toWebauthnCredential) resp with
  | error e => rw [hv] at h; exact absurd h (by simp)
  | ok p =>
    obtain ⟨wc, hfind⟩ := validateLogin_ok_found cfg
      (reconstructedLoginSession resp.challenge user.id)
      ((credentialsOfUser db user.id).map toWebauthnCredential) resp p hv
    obtain ⟨cred, hm, hu, hid⟩ :=
      find_mapped_credential db user.id resp.credentialId wc hfind
    exact ⟨row, h1, cred, hm, by rw [hu]; exact huid, hid⟩

/-- C7 witness: a concrete successful login, from which the validated
credential is alice's own. -/
theorem finishLogin_rejects_cross_user_witness :
    ∃ row, findLoginChallenge dbL0 respL0.challenge = some row ∧
      ∃ cred, cred ∈ dbL0.credentials ∧ cred.userId = row.userId ∧
        cred.id = respL0.credentialId :=
  finishLogin_rejects_cross_user cfg0 dbL0 respL0 (dbL0After, "alice") (by decide)

/-- C9.  Frame condition of a successful `FinishLogin`: the users table
is untouched, and the credentials table changes only by overwriting the
`sign_count` of the rows bearing the validated credential's id — every
other column of every credential row (id, owner, public key, backup
flags, attestation type, aaguid, creation time) and every other row are
carried over unchanged. -/
theorem finishLogin_frame (cfg : Config) (db : DB) (resp : AssertionResponse)
    (out : DB × String) (h : FinishLogin cfg db resp = .ok out) :
    out.1.users = db.users ∧
    ∃ cid newCount, out.1.credentials = db.credentials.map (fun c =>
      if c.id = cid then { c with signCount := newCount } else c) := by
  obtain ⟨row, user, h1, h2⟩ := finishLogin_ok_resolved cfg db resp out h
  rw [finishLogin_eq cfg db resp row user h1 h2] at h
  cases hv : ValidateLogin cfg (reconstructedLoginSession resp.challenge user.id)
      ((credentialsOfUser db user.id).map toWebauthnCredential) resp with
  | error e => rw [hv] at h; exact absurd h (by simp)
  | ok p =>
    rw [hv] at h
    obtain ⟨cid, newCount⟩ := p
    have hout := Except.ok.inj h
    rw [← hout]
    exact ⟨rfl, cid, newCount, rfl⟩

/-- C9 witness: the concrete successful login touches only alice's
`sign_count`. -/
theorem finishLogin_frame_witness :
    dbL0After.users = dbL0.users ∧
    ∃ cid newCount, dbL0After.credentials = dbL0.credentials.map (fun c =>
      if c.id = cid then { c with signCount := newCount } else c) :=
  finishLogin_frame cfg0 dbL0 respL0 (dbL0After, "alice") (by decide)

/-- C2 amended.  A challenge is consumed only by a SUCCESSFUL Finish:
after a successful `FinishLogin` the challenge row is gone and a second
call with the same challenge fails with challenge-not-found; a
successful `FinishRegistration` deletes the consumed registration row
(together with all of that user's registration sessions), and once no
registration session remains pending a second call fails with
challenge-not-found.  (A FAILED Finish deletes nothing — see the
counterexample.) -/
theorem challenge_single_use_on_success :
    (∀ cfg db resp db' nm, FinishLogin cfg db resp = .ok (db', nm) →
      findLoginChallenge db' resp.challenge = none ∧
      FinishLogin cfg db' resp = .error .challengeNotFound) ∧
    (∀ cfg db resp now db' row,
      FinishRegistration cfg db resp now = .ok db' →
      mostRecentRegistration db = some row →
      row ∉ db'.challenges ∧
      (∀ now2, (∀ r ∈ db'.challenges, r.ctype ≠ "registration") →
        FinishRegistration cfg db' resp now2 = .error .challengeNotFound)) := by
  constructor
  · intro cfg db resp db' nm h
    obtain ⟨row, user, h1, h2⟩ := finishLogin_ok_resolved cfg db resp (db', nm) h
    rw [finishLogin_eq cfg db resp row user h1 h2] at h
    cases hv : ValidateLogin cfg (reconstructedLoginSession resp.challenge user.id)
        ((credentialsOfUser db user.id).map toWebauthnCredential) resp with
    | error e => rw [hv] at h; exact absurd h (by simp)
    | ok p =>
      rw [hv] at h
      obtain ⟨cid, cnt⟩ := p
      have hout := Except.ok.inj h
      have hdb : ({ db with
          credentials := db.credentials.map
            (fun c => if c.id = cid then { c with signCount := cnt } else c),
          challenges := db.challenges.filter
            (fun r => ¬(r.challenge = ChallengeBlob.raw resp.challenge ∧
              r.ctype = "login")) } : DB) = db' := congrArg Prod.fst hout
      have hnone : findLoginChallenge db' resp.challenge = none := by
        rw [← hdb]
        unfold findLoginChallenge
        rw [List.find?_eq_none]
        intro x hx
        have hx' : x ∈ db.challenges.filter
            (fun r => ¬(r.challenge = ChallengeBlob.raw resp.challenge ∧
              r.ctype = "login")) := hx
        have h2x := (List.mem_filter.mp hx').2
        simp only [decide_eq_true_eq] at h2x
        simpa only [decide_eq_true_eq] using h2x
      refine ⟨hnone, ?_⟩
      unfold FinishLogin
      simp only [hnone]
  · intro cfg db resp now db' row h hrow
    obtain ⟨row', session, user, h1, hb, h2, hch, huid⟩ :=
      finishRegistration_ok_resolved cfg db resp now db' h
    have hrr : row' = row := Option.some.inj (h1.symm.trans hrow)
    subst hrr
    have hreg : row'.ctype = "registration" :=
      (mostRecentRegistration_mem db row' hrow).2
    constructor
    · intro hmem'
      have hmf : row' ∈ db.challenges.filter
          (fun r => ¬(r.userId = user.id ∧ r.ctype = "registration")) := by
        rw [← hch]; exact hmem'
      have := (List.mem_filter.mp hmf).2
      simp only [decide_eq_true_eq] at this
      exact this ⟨huid.symm, hreg⟩
    · intro now2 hnone
      have hfil : db'.challenges.filter (fun r => r.ctype = "registration") = [] := by
        rw [List.filter_eq_nil_iff]
        intro a ha
        simpa using hnone a ha
      unfold FinishRegistration mostRecentRegistration
      rw [hfil]
      rfl

/-- C2 amended witness: after alice's successful login Finish the
challenge is gone and a repeat fails with challenge-not-found; after
bob's successful registration Finish his session row is gone and a
repeat fails with challenge-not-found. -/
theorem challenge_single_use_on_success_witness :
    (findLoginChallenge dbL0After respL0.challenge = none ∧
      FinishLogin cfg0 dbL0After respL0 = .error .challengeNotFound) ∧
    (rowExp ∉ dbRegDone.challenges ∧
      FinishRegistration cfg0 dbRegDone respR0 101 = .error .challengeNotFound) := by
  have hl := challenge_single_use_on_success.1 cfg0 dbL0 respL0 dbL0After "alice"
    (by decide)
  have hr := challenge_single_use_on_success.2 cfg0 dbExpReg respR0 100 dbRegDone
    rowExp (by decide) (by decide)
  exact ⟨hl, hr.1, hr.2 101 (by decide)⟩

end LearnPasskeys
